import Mathlib

/-!
Shallow embedding of the banking-transaction analysis repository.

The analyzer (`banking_analysis.py`) loads a CSV into a table of rows with
nullable columns `user_id`, `merchant_id`, `transaction_amount`, `status`,
and computes three aggregate views:
  * `avg_txn`        — average transaction amount per user,
  * `failure_rate`   — failure rate per merchant (left join of failed counts
                       onto total counts, null-filled with 0),
  * `top_merchants`  — top 5 merchants by transaction count.
The generator (`transaction_generator.py`) produces `n` transaction records
with unique transaction ids via a retry-on-collision loop.

Rows are lists; a grouped view lists each distinct key (in `List.dedup`
order) with its aggregate; numeric amounts and averages are modelled as
rationals.  Randomness is modelled as an explicit stream of draws, and the
unbounded retry loop of the generator with explicit fuel.
-/

/-- A row of the loaded transaction table.  Every column is nullable
(`None` models a null CSV cell). -/
structure Row where
  user_id : Option String
  merchant_id : Option String
  transaction_amount : Option ℚ
  status : Option String
deriving DecidableEq, Repr

/-- A row of the average-transaction-per-user view. -/
structure AvgRow where
  user_id : String
  avg_transaction : ℚ
deriving DecidableEq, Repr

/-- A row of the failure-rate-per-merchant view. -/
structure FRRow where
  merchant_id : String
  total_txns : Nat
  failed_txns : Nat
  failure_rate : ℚ
deriving DecidableEq, Repr

/-- A row of the top-merchants-by-transaction-count view. -/
structure TMRow where
  merchant_id : String
  txn_count : Nat
deriving DecidableEq, Repr

/-- `groupBy("merchant_id").agg(count("*"))`: one pair `(m, c)` per distinct
merchant id occurring in `l`, where `c` counts the rows of `l` carrying that
merchant id. -/
def groupCount (l : List Row) : List (String × Nat) :=
  ((l.filterMap Row.merchant_id).dedup).map fun m =>
    (m, l.countP fun r => decide (r.merchant_id = some m))

/-- The filter of the average-transaction view:
`df.filter(col("transaction_amount").isNotNull() & col("user_id").isNotNull())`. -/
def avgFiltered (ds : List Row) : List Row :=
  ds.filter fun r => r.transaction_amount.isSome && r.user_id.isSome

/-- The non-null amounts of the rows of `f` belonging to user `u`. -/
def userAmounts (f : List Row) (u : String) : List ℚ :=
  (f.filter fun r => decide (r.user_id = some u)).filterMap Row.transaction_amount

/-- `groupBy("user_id").agg(avg("transaction_amount"))` over an already
filtered table `f`. -/
def avgOfFiltered (f : List Row) : List AvgRow :=
  ((f.filterMap Row.user_id).dedup).map fun u =>
    ⟨u, (userAmounts f u).sum / ((userAmounts f u).length : ℚ)⟩

/-- The average-transaction-per-user view (`avg_txn` in the source). -/
def avg_txn (ds : List Row) : List AvgRow :=
  avgOfFiltered (avgFiltered ds)

/-- `df.filter(col("merchant_id").isNotNull())`. -/
def merchantFiltered (ds : List Row) : List Row :=
  ds.filter fun r => r.merchant_id.isSome

/-- `df.filter((col("status") == "FAILED") & col("merchant_id").isNotNull())`. -/
def failedFiltered (ds : List Row) : List Row :=
  ds.filter fun r => decide (r.status = some "FAILED") && r.merchant_id.isSome

/-- `total`: transaction count per non-null merchant. -/
def total (ds : List Row) : List (String × Nat) :=
  groupCount (merchantFiltered ds)

/-- `failed`: failed-transaction count per non-null merchant. -/
def failed (ds : List Row) : List (String × Nat) :=
  groupCount (failedFiltered ds)

/-- The left-join lookup with zero fill: the failed count joined onto a
merchant `m`, `fillna(0)` when `m` has no row in `fl`. -/
def joinFailed (fl : List (String × Nat)) (m : String) : Nat :=
  match fl.find? (fun q => decide (q.1 = m)) with
  | some q => q.2
  | none => 0

/-- The failure-rate view: left join of `failed` onto `total` by merchant id,
zero fill, and the guarded rate column
`when(total_txns > 0, failed_txns / total_txns).otherwise(0.0)`. -/
def failure_rate (ds : List Row) : List FRRow :=
  (total ds).map fun p =>
    let f := joinFailed (failed ds) p.1
    ⟨p.1, p.2, f, if 0 < p.2 then (f : ℚ) / (p.2 : ℚ) else 0⟩

/-- Transaction count per non-null merchant, as rows of the top-merchants
view before ordering. -/
def txnCounts (ds : List Row) : List TMRow :=
  (groupCount (merchantFiltered ds)).map fun p => ⟨p.1, p.2⟩

/-- Insert a row into a list sorted by non-increasing `txn_count`, keeping it
sorted. -/
def insertDesc (x : TMRow) : List TMRow → List TMRow
  | [] => [x]
  | y :: ys => if y.txn_count ≤ x.txn_count then x :: y :: ys else y :: insertDesc x ys

/-- `orderBy(col("txn_count").desc())`: sort rows by non-increasing
`txn_count` (the tie-break order is an implementation detail of the engine;
insertion sort fixes one deterministic choice). -/
def sortDesc : List TMRow → List TMRow
  | [] => []
  | x :: xs => insertDesc x (sortDesc xs)

/-- The top-merchants view: counts per merchant, sorted by descending
`txn_count`, `limit(5)`. -/
def top_merchants (ds : List Row) : List TMRow :=
  (sortDesc (txnCounts ds)).take 5

/-- The 4-row scenario input of the spec:
`(U1,M1,100,SUCCESS)`, `(U1,M1,50,FAILED)`, `(U2,M1,200,SUCCESS)`,
`(U2,M2,300,SUCCESS)`. -/
def scenarioInput : List Row :=
  [⟨some "U1", some "M1", some 100, some "SUCCESS"⟩,
   ⟨some "U1", some "M1", some 50, some "FAILED"⟩,
   ⟨some "U2", some "M1", some 200, some "SUCCESS"⟩,
   ⟨some "U2", some "M2", some 300, some "SUCCESS"⟩]

/-- The error raised by the analyzer before any view is computed:
`emptyDataset` models `ValueError("No data found in the input file")`
(the spec's `EmptyDatasetError`), `fileNotFound` the missing-input check. -/
inductive AnalysisError where
  | fileNotFound
  | emptyDataset
deriving DecidableEq, Repr

/-- The three in-memory computed views. -/
structure Views where
  avg : List AvgRow
  fr : List FRRow
  top : List TMRow
deriving DecidableEq, Repr

/-- The three output CSV files, in the order the save block writes them. -/
def outputFiles : List String :=
  ["avg_transaction_per_user.csv", "failure_rate_per_merchant.csv", "top_5_merchants.csv"]

/-- The save block: the three `to_csv` calls run sequentially inside one
`try`, so the first failing write raises past the remaining calls to the
single `except` handler.  Returns (files attempted, files written, all
writes succeeded); `writeOk f` tells whether writing file `f` succeeds. -/
def trySaves (writeOk : String → Bool) : List String → List String × List String × Bool
  | [] => ([], [], true)
  | f :: fs =>
    if writeOk f then
      let r := trySaves writeOk fs
      (f :: r.1, f :: r.2.1, r.2.2)
    else ([f], [], false)

/-- Observable trace of one analyzer run (`main` of `banking_analysis.py`). -/
structure MainTrace where
  error : Option AnalysisError
  views : Option Views
  printedResults : Bool
  attemptedSaves : List String
  writtenFiles : List String
  reportedAnalysisSuccess : Bool
deriving DecidableEq, Repr

/-- One analyzer run on a loaded table `ds`: the empty-dataset check aborts
before any view is computed or file written; otherwise the three views are
computed and printed, then the save block runs with its own `except` handler
that reports the analysis itself as having completed successfully even when
a write fails. -/
def runAnalyzer (ds : List Row) (writeOk : String → Bool) : MainTrace :=
  if ds.length = 0 then
    { error := some .emptyDataset, views := none, printedResults := false,
      attemptedSaves := [], writtenFiles := [], reportedAnalysisSuccess := false }
  else
    let s := trySaves writeOk outputFiles
    { error := none, views := some ⟨avg_txn ds, failure_rate ds, top_merchants ds⟩,
      printedResults := true, attemptedSaves := s.1, writtenFiles := s.2.1,
      reportedAnalysisSuccess := true }

/-- The non-identifier payload of a generated transaction record
(`customer_id`, `amount`, `status`, ... of `generate_transaction`); its
random draws are abstracted into one opaque-to-the-claims value. -/
structure TxData where
  customer_id : String
  amount : ℚ
  status : String
deriving DecidableEq, Repr

/-- A generated transaction record: unique id plus payload. -/
structure Transaction where
  transaction_id : String
  data : TxData
deriving DecidableEq, Repr

/-- Mutable state of `TransactionGenerator`: the set of issued ids
(`self.used_transaction_ids`, as a list) and the position in the stream of
random uuid draws. -/
structure GenState where
  used_transaction_ids : List String
  pos : Nat
deriving DecidableEq, Repr

/-- `generate_unique_transaction_id`: draw uuids from the stream `draws`
until one is not in the used set, add it to the set and return it.  The
source's unbounded `while True` loop is given explicit fuel; `none` models
non-termination within the fuel. -/
def generate_unique_transaction_id (draws : Nat → String) :
    Nat → GenState → Option (String × GenState)
  | 0, _ => none
  | fuel + 1, s =>
    let tid := draws s.pos
    if tid ∈ s.used_transaction_ids then
      generate_unique_transaction_id draws fuel ⟨s.used_transaction_ids, s.pos + 1⟩
    else
      some (tid, ⟨tid :: s.used_transaction_ids, s.pos + 1⟩)

/-- The loop body of `generate_transactions`: append `n` freshly generated
transactions, the `i`-th one carrying payload `td i`. -/
def genLoop (draws : Nat → String) (td : Nat → TxData) (fuel : Nat) :
    Nat → Nat → GenState → Option (List Transaction × GenState)
  | 0, _, s => some ([], s)
  | n + 1, i, s =>
    match generate_unique_transaction_id draws fuel s with
    | none => none
    | some (tid, s') =>
      match genLoop draws td fuel n (i + 1) s' with
      | none => none
      | some (ts, s'') => some (⟨tid, td i⟩ :: ts, s'')

/-- `TransactionGenerator().generate_transactions(n)`: run the loop from the
fresh state of `__init__` (empty used set). -/
def generate_transactions (draws : Nat → String) (td : Nat → TxData)
    (fuel n : Nat) : Option (List Transaction × GenState) :=
  genLoop draws td fuel n 0 ⟨[], 0⟩

/-- The error of the generator's input validation: `invalidArgument` models
the rejection of a non-positive record count (`validate_input` refuses it
and makes the user correct the input; the spec's `InvalidArgument`). -/
inductive GenError where
  | invalidArgument
deriving DecidableEq, Repr

/-- Observable trace of one generator run. -/
structure GenTrace where
  error : Option GenError
  records : List Transaction
  filesWritten : List String
deriving Repr

/-- One generator run (`main` of `transaction_generator.py`) on a requested
record count `n`: validation rejects `n <= 0` before any record is generated
or file touched; otherwise the records are generated and then saved to CSV
and JSON.  The outer `none` models running out of fuel in the id-retry
loop. -/
def runGenerator (n : Int) (draws : Nat → String) (td : Nat → TxData)
    (fuel : Nat) : Option GenTrace :=
  if n ≤ 0 then some { error := some .invalidArgument, records := [], filesWritten := [] }
  else
    match generate_transactions draws td fuel n.toNat with
    | none => none
    | some (ts, _) =>
      if ts.isEmpty then some { error := none, records := ts, filesWritten := [] }
      else some { error := none, records := ts,
                  filesWritten := ["transactions.csv", "transactions.json"] }

/-- A write-outcome function under which writing the first output CSV fails
and writing either of the other two would succeed. -/
def failFirstWrite : String → Bool :=
  fun f => !(decide (f = "avg_transaction_per_user.csv"))

/-- A concrete stream of uuid draws (all pairwise distinct). -/
def wDraws : Nat → String :=
  fun i => String.mk (List.replicate i 'a')

/-- A concrete payload stream for generated transactions. -/
def wTd : Nat → TxData :=
  fun _ => ⟨"C10000", 50, "SUCCESS"⟩

/-- A concrete row with a null merchant id but non-null user id and amount. -/
def nullMerchantRow : Row :=
  ⟨some "U3", none, some 10, some "SUCCESS"⟩

/-! ### Lemmas about grouped counting -/

theorem mem_groupCount {l : List Row} {p : String × Nat} :
    p ∈ groupCount l ↔
      (∃ r ∈ l, r.merchant_id = some p.1) ∧
        p.2 = l.countP fun r => decide (r.merchant_id = some p.1) := by
  unfold groupCount
  rw [List.mem_map]
  constructor
  · rintro ⟨m, hm, rfl⟩
    rw [List.mem_dedup, List.mem_filterMap] at hm
    exact ⟨hm, rfl⟩
  · rintro ⟨⟨r, hr, hrm⟩, hp⟩
    refine ⟨p.1, ?_, ?_⟩
    · rw [List.mem_dedup, List.mem_filterMap]
      exact ⟨r, hr, hrm⟩
    · exact Prod.ext rfl hp.symm

theorem groupCount_keys (l : List Row) :
    (groupCount l).map Prod.fst = (l.filterMap Row.merchant_id).dedup := by
  unfold groupCount
  rw [List.map_map]
  simp [Function.comp_def]

theorem countP_merchantFiltered (ds : List Row) (m : String) :
    ((merchantFiltered ds).countP fun r => decide (r.merchant_id = some m)) =
      ds.countP fun r => decide (r.merchant_id = some m) := by
  rw [merchantFiltered, List.countP_filter]
  refine List.countP_congr fun r _ => ?_
  cases h : r.merchant_id <;> simp [h]

theorem filterMap_merchantFiltered (ds : List Row) :
    (merchantFiltered ds).filterMap Row.merchant_id = ds.filterMap Row.merchant_id := by
  have h : (fun x : Row => if x.merchant_id.isSome then x.merchant_id else none) =
      Row.merchant_id := by
    funext x
    cases h : x.merchant_id <;> simp [h]
  rw [merchantFiltered, List.filterMap_filter, h]

theorem countP_merchant_eq_count (l : List Row) (m : String) :
    (l.countP fun r => decide (r.merchant_id = some m)) =
      (l.filterMap Row.merchant_id).count m := by
  induction l with
  | nil => simp
  | cons r t ih =>
    cases h : r.merchant_id with
    | none => simp [List.countP_cons, List.filterMap_cons, h, ih]
    | some v =>
      by_cases hv : v = m <;>
        simp [List.countP_cons, List.filterMap_cons, List.count_cons, h, hv, ih]

theorem find?_keyed (l : List String) (c : String → Nat) (m : String) :
    ((l.map fun k => (k, c k)).find? fun q => decide (q.1 = m)) =
      if m ∈ l then some (m, c m) else none := by
  induction l with
  | nil => simp
  | cons k t ih =>
    by_cases hk : k = m
    · subst hk
      simp [List.find?_cons]
    · simp only [List.map_cons, List.find?_cons, decide_eq_true_eq, hk, if_false,
        decide_False]
      rw [ih]
      simp [List.mem_cons, Ne.symm hk]

theorem joinFailed_failed (ds : List Row) (m : String) :
    joinFailed (failed ds) m =
      ds.countP fun r => decide (r.merchant_id = some m ∧ r.status = some "FAILED") := by
  unfold joinFailed failed groupCount
  rw [find?_keyed]
  by_cases hm : m ∈ ((failedFiltered ds).filterMap Row.merchant_id).dedup
  · rw [if_pos hm]
    show ((failedFiltered ds).countP fun r => decide (r.merchant_id = some m)) = _
    rw [failedFiltered, List.countP_filter]
    refine List.countP_congr fun r _ => ?_
    cases h : r.merchant_id <;> simp [h, and_comm]
  · rw [if_neg hm]
    show 0 = _
    symm
    rw [List.countP_eq_zero]
    intro r hr hcontra
    rw [decide_eq_true_eq] at hcontra
    refine hm ?_
    rw [List.mem_dedup, List.mem_filterMap]
    refine ⟨r, ?_, hcontra.1⟩
    rw [failedFiltered, List.mem_filter]
    exact ⟨hr, by simp [hcontra.1, hcontra.2]⟩

theorem mem_merchantFiltered {ds : List Row} {r : Row} :
    r ∈ merchantFiltered ds ↔ r ∈ ds ∧ r.merchant_id.isSome := by
  rw [merchantFiltered, List.mem_filter]

/-- Full characterization of the rows of the failure-rate view: one row per
merchant occurring in the data, carrying the total count, the failed count
(zero-filled through the left join) and the guarded rate. -/
theorem mem_failure_rate {ds : List Row} {row : FRRow} :
    row ∈ failure_rate ds ↔
      (∃ r ∈ ds, r.merchant_id = some row.merchant_id) ∧
        row.total_txns =
          (ds.countP fun r => decide (r.merchant_id = some row.merchant_id)) ∧
        row.failed_txns =
          (ds.countP fun r =>
            decide (r.merchant_id = some row.merchant_id ∧ r.status = some "FAILED")) ∧
        row.failure_rate =
          if 0 < row.total_txns then (row.failed_txns : ℚ) / (row.total_txns : ℚ)
          else 0 := by
  unfold failure_rate
  rw [List.mem_map]
  constructor
  · rintro ⟨p, hp, rfl⟩
    obtain ⟨⟨r, hr, hrm⟩, hcount⟩ := mem_groupCount.mp hp
    refine ⟨⟨r, (mem_merchantFiltered.mp hr).1, hrm⟩, ?_, ?_, ?_⟩
    · show p.2 = _
      rw [hcount, countP_merchantFiltered]
    · show joinFailed (failed ds) p.1 = _
      exact joinFailed_failed ds p.1
    · show (if 0 < p.2 then (joinFailed (failed ds) p.1 : ℚ) / (p.2 : ℚ) else 0) = _
      rfl
  · rintro ⟨⟨r, hr, hrm⟩, ht, hf, hrate⟩
    refine ⟨(row.merchant_id, row.total_txns), ?_, ?_⟩
    · refine mem_groupCount.mpr ⟨⟨r, mem_merchantFiltered.mpr ⟨hr, ?_⟩, hrm⟩, ?_⟩
      · rw [hrm]; rfl
      · show row.total_txns = _
        rw [ht, countP_merchantFiltered]
    · show (⟨row.merchant_id, row.total_txns, joinFailed (failed ds) row.merchant_id,
        if 0 < row.total_txns then (joinFailed (failed ds) row.merchant_id : ℚ) /
          (row.total_txns : ℚ) else 0⟩ : FRRow) = row
      have hjf : joinFailed (failed ds) row.merchant_id = row.failed_txns := by
        rw [joinFailed_failed, hf]
      cases row with
      | mk m t f q =>
        rw [FRRow.mk.injEq]
        exact ⟨rfl, rfl, hjf, by rw [hjf]; exact hrate.symm⟩

/-- The totals of the failure-rate view sum to the number of rows with a
non-null merchant id. -/
theorem sum_total_txns (ds : List Row) :
    ((failure_rate ds).map FRRow.total_txns).sum =
      ds.countP fun r => r.merchant_id.isSome := by
  unfold failure_rate
  rw [List.map_map]
  have h1 : ((total ds).map
      (FRRow.total_txns ∘ fun p =>
        (⟨p.1, p.2, joinFailed (failed ds) p.1,
          if 0 < p.2 then (joinFailed (failed ds) p.1 : ℚ) / (p.2 : ℚ)
          else 0⟩ : FRRow))) = (total ds).map Prod.snd :=
    List.map_congr_left fun p _ => rfl
  rw [h1]
  unfold total groupCount
  rw [List.map_map]
  have h2 : (((merchantFiltered ds).filterMap Row.merchant_id).dedup.map
      (Prod.snd ∘ fun m =>
        (m, (merchantFiltered ds).countP fun r => decide (r.merchant_id = some m)))) =
      ((merchantFiltered ds).filterMap Row.merchant_id).dedup.map
        fun m => ((merchantFiltered ds).filterMap Row.merchant_id).count m :=
    List.map_congr_left fun m _ => countP_merchant_eq_count _ m
  rw [h2, List.sum_map_count_dedup_eq_length, filterMap_merchantFiltered,
    List.length_filterMap_eq_countP]

/-! ### Lemmas about the average-transaction view -/

theorem userAmounts_avgFiltered (ds : List Row) (u : String) :
    userAmounts (avgFiltered ds) u =
      (ds.filter fun r =>
        decide (r.user_id = some u) && r.transaction_amount.isSome).filterMap
        Row.transaction_amount := by
  unfold userAmounts avgFiltered
  rw [List.filter_filter]
  congr 1
  refine List.filter_congr fun r _ => ?_
  cases hu : r.user_id <;> cases ha : r.transaction_amount <;> simp [hu, ha]

theorem mem_avgKeys {ds : List Row} {u : String} :
    u ∈ ((avgFiltered ds).filterMap Row.user_id).dedup ↔
      ∃ r ∈ ds, r.user_id = some u ∧ r.transaction_amount.isSome := by
  rw [List.mem_dedup, List.mem_filterMap]
  constructor
  · rintro ⟨r, hr, hru⟩
    rw [avgFiltered, List.mem_filter] at hr
    refine ⟨r, hr.1, hru, ?_⟩
    have := hr.2
    simp only [Bool.and_eq_true] at this
    exact this.1
  · rintro ⟨r, hr, hru, hra⟩
    refine ⟨r, ?_, hru⟩
    rw [avgFiltered, List.mem_filter]
    exact ⟨hr, by simp [hru, hra]⟩

theorem mem_avg_txn {ds : List Row} {row : AvgRow} :
    row ∈ avg_txn ds ↔
      (∃ r ∈ ds, r.user_id = some row.user_id ∧ r.transaction_amount.isSome) ∧
        row.avg_transaction =
          (userAmounts (avgFiltered ds) row.user_id).sum /
            ((userAmounts (avgFiltered ds) row.user_id).length : ℚ) := by
  unfold avg_txn avgOfFiltered
  rw [List.mem_map]
  constructor
  · rintro ⟨u, hu, rfl⟩
    exact ⟨mem_avgKeys.mp hu, rfl⟩
  · rintro ⟨hex, havg⟩
    refine ⟨row.user_id, mem_avgKeys.mpr hex, ?_⟩
    cases row with
    | mk u a => rw [AvgRow.mk.injEq]; exact ⟨rfl, havg.symm⟩

/-! ### Lemmas about sorting by descending transaction count -/

theorem mem_insertDesc {x a : TMRow} {l : List TMRow} :
    a ∈ insertDesc x l ↔ a = x ∨ a ∈ l := by
  induction l with
  | nil => simp [insertDesc]
  | cons y ys ih =>
    unfold insertDesc
    split
    · simp [List.mem_cons]
    · rw [List.mem_cons, ih, List.mem_cons]
      tauto

theorem insertDesc_perm (x : TMRow) (l : List TMRow) :
    (insertDesc x l).Perm (x :: l) := by
  induction l with
  | nil => simp [insertDesc]
  | cons y ys ih =>
    unfold insertDesc
    split
    · exact List.Perm.refl _
    · exact (ih.cons y).trans (List.Perm.swap x y ys)

theorem sortDesc_perm (l : List TMRow) : (sortDesc l).Perm l := by
  induction l with
  | nil => simp [sortDesc]
  | cons x xs ih =>
    exact (insertDesc_perm x (sortDesc xs)).trans (ih.cons x)

theorem pairwise_insertDesc {x : TMRow} {l : List TMRow}
    (h : l.Pairwise fun a b => b.txn_count ≤ a.txn_count) :
    (insertDesc x l).Pairwise fun a b => b.txn_count ≤ a.txn_count := by
  induction l with
  | nil => simp [insertDesc]
  | cons y ys ih =>
    rw [List.pairwise_cons] at h
    unfold insertDesc
    split
    · rename_i hyx
      rw [List.pairwise_cons]
      refine ⟨?_, List.pairwise_cons.mpr h⟩
      intro b hb
      rcases List.mem_cons.mp hb with hb | hb
      · exact hb ▸ hyx
      · exact le_trans (h.1 b hb) hyx
    · rename_i hyx
      rw [List.pairwise_cons]
      refine ⟨?_, ih h.2⟩
      intro b hb
      rcases mem_insertDesc.mp hb with rfl | hb
      · exact le_of_not_le hyx
      · exact h.1 b hb

theorem pairwise_sortDesc (l : List TMRow) :
    (sortDesc l).Pairwise fun a b => b.txn_count ≤ a.txn_count := by
  induction l with
  | nil => simp [sortDesc]
  | cons x xs ih => exact pairwise_insertDesc ih

/-! ### Lemmas about the failure-rate and top-merchants keys -/

theorem failure_rate_keys (ds : List Row) :
    (failure_rate ds).map FRRow.merchant_id = (ds.filterMap Row.merchant_id).dedup := by
  unfold failure_rate
  rw [List.map_map]
  have h : ((total ds).map
      (FRRow.merchant_id ∘ fun p =>
        (⟨p.1, p.2, joinFailed (failed ds) p.1,
          if 0 < p.2 then (joinFailed (failed ds) p.1 : ℚ) / (p.2 : ℚ)
          else 0⟩ : FRRow))) = (total ds).map Prod.fst :=
    List.map_congr_left fun p _ => rfl
  rw [h, total, groupCount_keys, filterMap_merchantFiltered]

theorem avg_txn_keys (ds : List Row) :
    (avg_txn ds).map AvgRow.user_id = ((avgFiltered ds).filterMap Row.user_id).dedup := by
  unfold avg_txn avgOfFiltered
  rw [List.map_map]
  simp [Function.comp_def]

theorem mem_txnCounts {ds : List Row} {row : TMRow} :
    row ∈ txnCounts ds ↔
      (∃ r ∈ ds, r.merchant_id = some row.merchant_id) ∧
        row.txn_count = ds.countP fun r => decide (r.merchant_id = some row.merchant_id) := by
  unfold txnCounts
  rw [List.mem_map]
  constructor
  · rintro ⟨p, hp, rfl⟩
    obtain ⟨⟨r, hr, hrm⟩, hcount⟩ := mem_groupCount.mp hp
    exact ⟨⟨r, (mem_merchantFiltered.mp hr).1, hrm⟩,
      by show p.2 = _; rw [hcount, countP_merchantFiltered]⟩
  · rintro ⟨⟨r, hr, hrm⟩, hc⟩
    refine ⟨(row.merchant_id, row.txn_count), ?_, rfl⟩
    refine mem_groupCount.mpr ⟨⟨r, mem_merchantFiltered.mpr ⟨hr, ?_⟩, hrm⟩, ?_⟩
    · rw [hrm]; rfl
    · show row.txn_count = _
      rw [hc, countP_merchantFiltered]

theorem mem_of_mem_top_merchants {ds : List Row} {row : TMRow}
    (h : row ∈ top_merchants ds) : row ∈ txnCounts ds := by
  rw [top_merchants] at h
  exact (sortDesc_perm (txnCounts ds)).mem_iff.mp ((List.take_sublist 5 _).subset h)

theorem length_top_merchants (ds : List Row) :
    (top_merchants ds).length = min 5 (ds.filterMap Row.merchant_id).dedup.length := by
  rw [top_merchants, List.length_take, (sortDesc_perm (txnCounts ds)).length_eq,
    txnCounts, List.length_map, groupCount, List.length_map, filterMap_merchantFiltered]

/-! ### Claim theorems -/

/-- C1: For every loaded non-empty dataset, the failure-rate view contains
one row per distinct non-null merchant_id (no duplicate keys; a key for a
merchant iff some row carries it), with `total_txns` the count of that
merchant's rows, `failed_txns` the count of that merchant's rows with status
"FAILED" (zero-filled through the left join), and
`failure_rate = failed_txns / total_txns`; on the 4-row scenario input the
rates are 1/3 for M1 and 0 for M2. -/
theorem failure_rate_view_correct (ds : List Row) (hds : ds ≠ []) :
    ((failure_rate ds).map FRRow.merchant_id).Nodup ∧
    (∀ m : String, m ∈ (failure_rate ds).map FRRow.merchant_id ↔
      ∃ r ∈ ds, r.merchant_id = some m) ∧
    (∀ row ∈ failure_rate ds,
      row.total_txns =
        (ds.countP fun r => decide (r.merchant_id = some row.merchant_id)) ∧
      row.failed_txns =
        (ds.countP fun r =>
          decide (r.merchant_id = some row.merchant_id ∧ r.status = some "FAILED")) ∧
      row.failure_rate = (row.failed_txns : ℚ) / (row.total_txns : ℚ)) ∧
    (failure_rate scenarioInput).map (fun r => (r.merchant_id, r.failure_rate)) =
      [("M1", 1/3), ("M2", 0)] := by
  refine ⟨?_, ?_, ?_, ?_⟩
  · rw [failure_rate_keys]
    exact List.nodup_dedup _
  · intro m
    rw [failure_rate_keys, List.mem_dedup, List.mem_filterMap]
  · intro row hrow
    obtain ⟨⟨r, hr, hrm⟩, ht, hf, hrate⟩ := mem_failure_rate.mp hrow
    have hpos : 0 < row.total_txns := by
      rw [ht, List.countP_pos_iff]
      exact ⟨r, hr, by simp [hrm]⟩
    exact ⟨ht, hf, by rw [hrate, if_pos hpos]⟩
  · simp +decide [failure_rate, total, failed, groupCount, merchantFiltered,
      failedFiltered, joinFailed, scenarioInput, List.countP_cons, List.filter,
      List.filterMap, List.dedup, List.find?]

theorem failure_rate_view_correct_witness :
    scenarioInput ≠ [] ∧
      (((failure_rate scenarioInput).map FRRow.merchant_id).Nodup ∧
      (∀ m : String, m ∈ (failure_rate scenarioInput).map FRRow.merchant_id ↔
        ∃ r ∈ scenarioInput, r.merchant_id = some m) ∧
      (∀ row ∈ failure_rate scenarioInput,
        row.total_txns =
          (scenarioInput.countP fun r => decide (r.merchant_id = some row.merchant_id)) ∧
        row.failed_txns =
          (scenarioInput.countP fun r =>
            decide (r.merchant_id = some row.merchant_id ∧ r.status = some "FAILED")) ∧
        row.failure_rate = (row.failed_txns : ℚ) / (row.total_txns : ℚ)) ∧
      (failure_rate scenarioInput).map (fun r => (r.merchant_id, r.failure_rate)) =
        [("M1", 1/3), ("M2", 0)]) :=
  ⟨by decide, failure_rate_view_correct scenarioInput (by decide)⟩

/-- C2: For every loaded non-empty dataset, the average-transaction view has
exactly one row per distinct non-null user_id among rows where both user_id
and amount are non-null, and that row's avg_transaction is the arithmetic
mean of the amounts of that user's retained rows; on the 4-row scenario input it
yields 75 for U1 and 250 for U2. -/
theorem avg_txn_view_correct (ds : List Row) (hds : ds ≠ []) :
    ((avg_txn ds).map AvgRow.user_id).Nodup ∧
    (∀ u : String, u ∈ (avg_txn ds).map AvgRow.user_id ↔
      ∃ r ∈ ds, r.user_id = some u ∧ r.transaction_amount.isSome) ∧
    (∀ row ∈ avg_txn ds,
      row.avg_transaction =
        ((ds.filter fun r => decide (r.user_id = some row.user_id) &&
            r.transaction_amount.isSome).filterMap Row.transaction_amount).sum /
          (((ds.filter fun r => decide (r.user_id = some row.user_id) &&
            r.transaction_amount.isSome).filterMap Row.transaction_amount).length : ℚ)) ∧
    (avg_txn scenarioInput).map (fun r => (r.user_id, r.avg_transaction)) =
      [("U1", 75), ("U2", 250)] := by
  refine ⟨?_, ?_, ?_, ?_⟩
  · rw [avg_txn_keys]
    exact List.nodup_dedup _
  · intro u
    rw [avg_txn_keys]
    exact mem_avgKeys
  · intro row hrow
    obtain ⟨hex, havg⟩ := mem_avg_txn.mp hrow
    rw [havg, userAmounts_avgFiltered]
  · simp +decide [avg_txn, avgOfFiltered, avgFiltered, userAmounts, scenarioInput,
      List.filter, List.filterMap, List.dedup]
    norm_num

theorem avg_txn_view_correct_witness :
    scenarioInput ≠ [] ∧
      (((avg_txn scenarioInput).map AvgRow.user_id).Nodup ∧
      (∀ u : String, u ∈ (avg_txn scenarioInput).map AvgRow.user_id ↔
        ∃ r ∈ scenarioInput, r.user_id = some u ∧ r.transaction_amount.isSome) ∧
      (∀ row ∈ avg_txn scenarioInput,
        row.avg_transaction =
          ((scenarioInput.filter fun r => decide (r.user_id = some row.user_id) &&
              r.transaction_amount.isSome).filterMap Row.transaction_amount).sum /
            (((scenarioInput.filter fun r => decide (r.user_id = some row.user_id) &&
              r.transaction_amount.isSome).filterMap Row.transaction_amount).length : ℚ)) ∧
      (avg_txn scenarioInput).map (fun r => (r.user_id, r.avg_transaction)) =
        [("U1", 75), ("U2", 250)]) :=
  ⟨by decide, avg_txn_view_correct scenarioInput (by decide)⟩

/-- C3: For every loaded non-empty dataset, the top-merchants view has
length `min 5 (number of distinct non-null merchant ids)`, each row's
txn_count is that merchant's row count, the rows are sorted non-increasing
by txn_count; on the 4-row scenario input the view is [(M1,3), (M2,1)]. -/
theorem top_merchants_view_correct (ds : List Row) (hds : ds ≠ []) :
    (top_merchants ds).length = min 5 (ds.filterMap Row.merchant_id).dedup.length ∧
    (∀ row ∈ top_merchants ds,
      row.txn_count = ds.countP fun r => decide (r.merchant_id = some row.merchant_id)) ∧
    ((top_merchants ds).Pairwise fun a b => b.txn_count ≤ a.txn_count) ∧
    top_merchants scenarioInput = [⟨"M1", 3⟩, ⟨"M2", 1⟩] := by
  refine ⟨length_top_merchants ds, ?_, ?_, ?_⟩
  · intro row hrow
    exact (mem_txnCounts.mp (mem_of_mem_top_merchants hrow)).2
  · exact (pairwise_sortDesc (txnCounts ds)).sublist (List.take_sublist 5 _)
  · simp +decide [top_merchants, txnCounts, groupCount, merchantFiltered, scenarioInput,
      sortDesc, insertDesc, List.countP_cons, List.filter, List.filterMap, List.dedup]

theorem top_merchants_view_correct_witness :
    scenarioInput ≠ [] ∧
      ((top_merchants scenarioInput).length =
        min 5 (scenarioInput.filterMap Row.merchant_id).dedup.length ∧
      (∀ row ∈ top_merchants scenarioInput,
        row.txn_count =
          scenarioInput.countP fun r => decide (r.merchant_id = some row.merchant_id)) ∧
      ((top_merchants scenarioInput).Pairwise fun a b => b.txn_count ≤ a.txn_count) ∧
      top_merchants scenarioInput = [⟨"M1", 3⟩, ⟨"M2", 1⟩]) :=
  ⟨by decide, top_merchants_view_correct scenarioInput (by decide)⟩

/-- C4: Every row of the failure-rate view has `0 ≤ failure_rate ≤ 1`, rate
0 whenever `failed_txns = 0`, a strictly positive `total_txns` (so the
guarded division's else-branch is unreachable), and its rate is exactly the
guarded expression `if total_txns > 0 then failed/total else 0`. -/
theorem failure_rate_bounds (ds : List Row) (row : FRRow)
    (hrow : row ∈ failure_rate ds) :
    0 ≤ row.failure_rate ∧ row.failure_rate ≤ 1 ∧
    (row.failed_txns = 0 → row.failure_rate = 0) ∧
    0 < row.total_txns ∧
    row.failure_rate =
      if 0 < row.total_txns then (row.failed_txns : ℚ) / (row.total_txns : ℚ)
      else 0 := by
  obtain ⟨⟨r, hr, hrm⟩, ht, hf, hrate⟩ := mem_failure_rate.mp hrow
  have hpos : 0 < row.total_txns := by
    rw [ht, List.countP_pos_iff]
    exact ⟨r, hr, by simp [hrm]⟩
  have hle : row.failed_txns ≤ row.total_txns := by
    rw [ht, hf]
    refine List.countP_mono_left fun x hx h => ?_
    rw [decide_eq_true_eq] at h ⊢
    exact h.1
  have hval : row.failure_rate = (row.failed_txns : ℚ) / (row.total_txns : ℚ) := by
    rw [hrate, if_pos hpos]
  refine ⟨?_, ?_, ?_, hpos, hrate⟩
  · rw [hval]
    exact div_nonneg (Nat.cast_nonneg _) (Nat.cast_nonneg _)
  · rw [hval]
    rw [div_le_one (by exact_mod_cast hpos)]
    exact_mod_cast hle
  · intro h0
    rw [hval, h0]
    simp

theorem failure_rate_bounds_witness :
    ((⟨"M1", 3, 1, 1/3⟩ : FRRow) ∈ failure_rate scenarioInput) ∧
      (0 ≤ (⟨"M1", 3, 1, 1/3⟩ : FRRow).failure_rate ∧
      (⟨"M1", 3, 1, 1/3⟩ : FRRow).failure_rate ≤ 1 ∧
      ((⟨"M1", 3, 1, 1/3⟩ : FRRow).failed_txns = 0 →
        (⟨"M1", 3, 1, 1/3⟩ : FRRow).failure_rate = 0) ∧
      0 < (⟨"M1", 3, 1, 1/3⟩ : FRRow).total_txns ∧
      (⟨"M1", 3, 1, 1/3⟩ : FRRow).failure_rate =
        if 0 < (⟨"M1", 3, 1, 1/3⟩ : FRRow).total_txns then
          ((⟨"M1", 3, 1, 1/3⟩ : FRRow).failed_txns : ℚ) /
            ((⟨"M1", 3, 1, 1/3⟩ : FRRow).total_txns : ℚ)
        else 0) := by
  have hmem : (⟨"M1", 3, 1, 1/3⟩ : FRRow) ∈ failure_rate scenarioInput := by
    simp +decide [failure_rate, total, failed, groupCount, merchantFiltered,
      failedFiltered, joinFailed, scenarioInput, List.countP_cons, List.filter,
      List.filterMap, List.dedup, List.find?]
  exact ⟨hmem, failure_rate_bounds scenarioInput _ hmem⟩

theorem merchantFiltered_irrelevant {r : Row} (h : r.merchant_id = none)
    (ds₁ ds₂ : List Row) :
    merchantFiltered (ds₁ ++ r :: ds₂) = merchantFiltered (ds₁ ++ ds₂) := by
  simp [merchantFiltered, List.filter_append, List.filter_cons, h]

theorem failedFiltered_irrelevant {r : Row} (h : r.merchant_id = none)
    (ds₁ ds₂ : List Row) :
    failedFiltered (ds₁ ++ r :: ds₂) = failedFiltered (ds₁ ++ ds₂) := by
  simp [failedFiltered, List.filter_append, List.filter_cons, h]

/-- C5: A row is excluded only from views whose grouping key it lacks: a
row with null merchant_id is invisible to the failure-rate and top-merchants
views but, when its user_id and amount are non-null, it is retained by (and
its user keyed into) the average-transaction view; and removing a row with
null user_id or null amount leaves the average-transaction view unchanged. -/
theorem null_row_handling (r : Row) (ds₁ ds₂ : List Row) :
    (r.merchant_id = none →
      failure_rate (ds₁ ++ r :: ds₂) = failure_rate (ds₁ ++ ds₂) ∧
      top_merchants (ds₁ ++ r :: ds₂) = top_merchants (ds₁ ++ ds₂) ∧
      (r.user_id.isSome → r.transaction_amount.isSome →
        avgFiltered (ds₁ ++ r :: ds₂) = avgFiltered ds₁ ++ r :: avgFiltered ds₂ ∧
        (∀ u, r.user_id = some u →
          u ∈ (avg_txn (ds₁ ++ r :: ds₂)).map AvgRow.user_id))) ∧
    ((r.user_id = none ∨ r.transaction_amount = none) →
      avg_txn (ds₁ ++ r :: ds₂) = avg_txn (ds₁ ++ ds₂)) := by
  constructor
  · intro hm
    refine ⟨?_, ?_, ?_⟩
    · unfold failure_rate total failed
      rw [merchantFiltered_irrelevant hm, failedFiltered_irrelevant hm]
    · unfold top_merchants txnCounts
      rw [merchantFiltered_irrelevant hm]
    · intro hu ha
      refine ⟨?_, ?_⟩
      · simp [avgFiltered, List.filter_append, List.filter_cons, hu, ha]
      · intro u huu
        rw [avg_txn_keys]
        exact mem_avgKeys.mpr ⟨r, by simp, huu, ha⟩
  · intro hna
    unfold avg_txn
    congr 1
    rcases hna with h | h <;>
      simp [avgFiltered, List.filter_append, List.filter_cons, h]

theorem null_row_handling_witness :
    nullMerchantRow.merchant_id = none ∧
      failure_rate (scenarioInput ++ nullMerchantRow :: []) = failure_rate (scenarioInput ++ []) ∧
      top_merchants (scenarioInput ++ nullMerchantRow :: []) = top_merchants (scenarioInput ++ []) ∧
      "U3" ∈ (avg_txn (scenarioInput ++ nullMerchantRow :: [])).map AvgRow.user_id := by
  have h := (null_row_handling nullMerchantRow scenarioInput []).1 rfl
  exact ⟨rfl, h.1, h.2.1, (h.2.2 (by decide) (by decide)).2 "U3" rfl⟩

/-- C6: On a loaded table with zero data rows the analyzer fails with the
empty-dataset error before computing any view, prints nothing and writes no
output file. -/
theorem empty_dataset_aborts (ds : List Row) (writeOk : String → Bool)
    (h : ds.length = 0) :
    runAnalyzer ds writeOk =
      { error := some .emptyDataset, views := none, printedResults := false,
        attemptedSaves := [], writtenFiles := [], reportedAnalysisSuccess := false } := by
  rw [runAnalyzer, if_pos h]

theorem empty_dataset_aborts_witness :
    ([] : List Row).length = 0 ∧
      runAnalyzer [] (fun _ => true) =
        { error := some .emptyDataset, views := none, printedResults := false,
          attemptedSaves := [], writtenFiles := [], reportedAnalysisSuccess := false } :=
  ⟨rfl, empty_dataset_aborts [] (fun _ => true) rfl⟩

/-- C7: For every requested record count n ≤ 0 the generator rejects the
input with the invalid-argument error before generating any record or
performing any file I/O. -/
theorem invalid_count_rejected (n : Int) (draws : Nat → String) (td : Nat → TxData)
    (fuel : Nat) (h : n ≤ 0) :
    runGenerator n draws td fuel =
      some { error := some .invalidArgument, records := [], filesWritten := [] } := by
  rw [runGenerator, if_pos h]

theorem invalid_count_rejected_witness :
    (0 : Int) ≤ 0 ∧
      runGenerator 0 wDraws wTd 5 =
        some { error := some .invalidArgument, records := [], filesWritten := [] } :=
  ⟨le_refl 0, invalid_count_rejected 0 wDraws wTd 5 (le_refl 0)⟩

/-- C8 counterexample: all three saves share one `try`/`except`, so when
writing the first CSV fails the other two files are never attempted, even
though writing them would have succeeded. -/
theorem save_block_not_isolated :
    failFirstWrite "avg_transaction_per_user.csv" = false ∧
    failFirstWrite "failure_rate_per_merchant.csv" = true ∧
    failFirstWrite "top_5_merchants.csv" = true ∧
    (runAnalyzer scenarioInput failFirstWrite).attemptedSaves =
      ["avg_transaction_per_user.csv"] ∧
    "failure_rate_per_merchant.csv" ∉ (runAnalyzer scenarioInput failFirstWrite).attemptedSaves ∧
    "top_5_merchants.csv" ∉ (runAnalyzer scenarioInput failFirstWrite).attemptedSaves := by
  have h : (runAnalyzer scenarioInput failFirstWrite).attemptedSaves =
      ["avg_transaction_per_user.csv"] := by
    rw [runAnalyzer, if_neg (by decide)]
    simp [trySaves, outputFiles, failFirstWrite]
  refine ⟨rfl, rfl, rfl, h, ?_, ?_⟩ <;> rw [h] <;> decide

/-- C8 amended: a write failure for one output file aborts the remaining
save attempts (the three writes share a single error handler), but it does
not discard the in-memory computed views, does not retract the printed
results, and the analysis still reports success. -/
theorem save_block_amended (ds : List Row) (writeOk : String → Bool)
    (hds : ds ≠ []) :
    (runAnalyzer ds writeOk).views =
      some ⟨avg_txn ds, failure_rate ds, top_merchants ds⟩ ∧
    (runAnalyzer ds writeOk).printedResults = true ∧
    (runAnalyzer ds writeOk).reportedAnalysisSuccess = true ∧
    (writeOk "avg_transaction_per_user.csv" = false →
      (runAnalyzer ds writeOk).attemptedSaves = ["avg_transaction_per_user.csv"] ∧
      (runAnalyzer ds writeOk).writtenFiles = []) ∧
    (writeOk "avg_transaction_per_user.csv" = true →
      writeOk "failure_rate_per_merchant.csv" = false →
      (runAnalyzer ds writeOk).attemptedSaves =
        ["avg_transaction_per_user.csv", "failure_rate_per_merchant.csv"] ∧
      (runAnalyzer ds writeOk).writtenFiles = ["avg_transaction_per_user.csv"]) := by
  have hlen : ¬ds.length = 0 := by
    simpa [List.length_eq_zero] using hds
  rw [runAnalyzer, if_neg hlen]
  refine ⟨rfl, rfl, rfl, ?_, ?_⟩
  · intro h1
    simp [trySaves, outputFiles, h1]
  · intro h1 h2
    simp [trySaves, outputFiles, h1, h2]

theorem save_block_amended_witness :
    scenarioInput ≠ [] ∧
      ((runAnalyzer scenarioInput failFirstWrite).views =
        some ⟨avg_txn scenarioInput, failure_rate scenarioInput, top_merchants scenarioInput⟩ ∧
      (runAnalyzer scenarioInput failFirstWrite).printedResults = true ∧
      (runAnalyzer scenarioInput failFirstWrite).reportedAnalysisSuccess = true ∧
      (failFirstWrite "avg_transaction_per_user.csv" = false →
        (runAnalyzer scenarioInput failFirstWrite).attemptedSaves =
          ["avg_transaction_per_user.csv"] ∧
        (runAnalyzer scenarioInput failFirstWrite).writtenFiles = []) ∧
      (failFirstWrite "avg_transaction_per_user.csv" = true →
        failFirstWrite "failure_rate_per_merchant.csv" = false →
        (runAnalyzer scenarioInput failFirstWrite).attemptedSaves =
          ["avg_transaction_per_user.csv", "failure_rate_per_merchant.csv"] ∧
        (runAnalyzer scenarioInput failFirstWrite).writtenFiles =
          ["avg_transaction_per_user.csv"])) :=
  ⟨by decide, save_block_amended scenarioInput failFirstWrite (by decide)⟩

theorem guid_spec (draws : Nat → String) :
    ∀ fuel s tid s',
      generate_unique_transaction_id draws fuel s = some (tid, s') →
        tid ∉ s.used_transaction_ids ∧
        s'.used_transaction_ids = tid :: s.used_transaction_ids := by
  intro fuel
  induction fuel with
  | zero =>
    intro s tid s' h
    simp [generate_unique_transaction_id] at h
  | succ fuel ih =>
    intro s tid s' h
    rw [generate_unique_transaction_id] at h
    by_cases hmem : draws s.pos ∈ s.used_transaction_ids
    · rw [if_pos hmem] at h
      exact ih ⟨s.used_transaction_ids, s.pos + 1⟩ tid s' h
    · rw [if_neg hmem] at h
      obtain ⟨rfl, rfl⟩ := Prod.mk.injEq .. ▸ Option.some.inj h
      exact ⟨hmem, rfl⟩

theorem genLoop_spec (draws : Nat → String) (td : Nat → TxData) (fuel : Nat) :
    ∀ n i s ts s',
      genLoop draws td fuel n i s = some (ts, s') →
        ts.length = n ∧
        (∀ t ∈ ts, t.transaction_id ∉ s.used_transaction_ids) ∧
        (∀ x ∈ s.used_transaction_ids, x ∈ s'.used_transaction_ids) ∧
        (∀ t ∈ ts, t.transaction_id ∈ s'.used_transaction_ids) ∧
        (ts.map Transaction.transaction_id).Nodup := by
  intro n
  induction n with
  | zero =>
    intro i s ts s' h
    rw [genLoop] at h
    obtain ⟨rfl, rfl⟩ := Prod.mk.injEq .. ▸ Option.some.inj h
    simp
  | succ n ih =>
    intro i s ts s' h
    rw [genLoop] at h
    cases hg : generate_unique_transaction_id draws fuel s with
    | none => simp [hg] at h
    | some p =>
      obtain ⟨tid, s₁⟩ := p
      cases hrec : genLoop draws td fuel n (i + 1) s₁ with
      | none => simp [hg, hrec] at h
      | some q =>
        obtain ⟨ts₁, s₂⟩ := q
        simp only [hg, hrec, Option.some.injEq, Prod.mk.injEq] at h
        obtain ⟨rfl, rfl⟩ := h
        obtain ⟨htid, hused⟩ := guid_spec draws fuel s tid s₁ hg
        obtain ⟨hlen, hnotin, hsub, hin, hnodup⟩ := ih (i + 1) s₁ ts₁ s₂ hrec
        have htid_in : tid ∈ s₂.used_transaction_ids :=
          hsub tid (by rw [hused]; exact List.mem_cons_self tid _)
        refine ⟨by simp [hlen], ?_, ?_, ?_, ?_⟩
        · intro t ht
          rcases List.mem_cons.mp ht with rfl | ht
          · exact htid
          · intro hcontra
            exact hnotin t ht (by rw [hused]; exact List.mem_cons_of_mem tid hcontra)
        · intro x hx
          exact hsub x (by rw [hused]; exact List.mem_cons_of_mem tid hx)
        · intro t ht
          rcases List.mem_cons.mp ht with rfl | ht
          · exact htid_in
          · exact hin t ht
        · rw [List.map_cons, List.nodup_cons]
          refine ⟨?_, hnodup⟩
          intro hcontra
          obtain ⟨t, ht, htt⟩ := List.mem_map.mp hcontra
          exact hnotin t ht (by rw [hused, htt]; exact List.mem_cons_self _ _)

/-- C9: Whenever the generator completes, it returns exactly n transaction
records whose transaction ids are pairwise distinct: the count of distinct
transaction identifiers equals n. -/
theorem generator_unique (draws : Nat → String) (td : Nat → TxData)
    (fuel n : Nat) (ts : List Transaction) (s' : GenState)
    (h : generate_transactions draws td fuel n = some (ts, s')) :
    ts.length = n ∧ (ts.map Transaction.transaction_id).Nodup ∧
    (ts.map Transaction.transaction_id).dedup.length = n := by
  obtain ⟨hlen, _, _, _, hnodup⟩ :=
    genLoop_spec draws td fuel n 0 ⟨[], 0⟩ ts s' h
  refine ⟨hlen, hnodup, ?_⟩
  rw [List.dedup_eq_self.mpr hnodup, List.length_map, hlen]

theorem generator_unique_witness :
    generate_transactions wDraws wTd 5 2 =
      some ([⟨"", wTd 0⟩, ⟨"a", wTd 1⟩], ⟨["a", ""], 2⟩) ∧
    ([(⟨"", wTd 0⟩ : Transaction), ⟨"a", wTd 1⟩].length = 2 ∧
      (([(⟨"", wTd 0⟩ : Transaction), ⟨"a", wTd 1⟩]).map
        Transaction.transaction_id).Nodup ∧
      (([(⟨"", wTd 0⟩ : Transaction), ⟨"a", wTd 1⟩]).map
        Transaction.transaction_id).dedup.length = 2) := by
  have h : generate_transactions wDraws wTd 5 2 =
      some ([⟨"", wTd 0⟩, ⟨"a", wTd 1⟩], ⟨["a", ""], 2⟩) := by
    simp [generate_transactions, genLoop, generate_unique_transaction_id, wDraws]
  exact ⟨h, generator_unique wDraws wTd 5 2 _ _ h⟩

/-- C10: In the failure-rate view each merchant occurring in the data has
exactly one row, every row satisfies failed_txns ≤ total_txns with
total_txns ≥ 1, and the totals sum to the number of rows with a non-null
merchant id. -/
theorem failure_rate_invariants (ds : List Row) :
    (∀ m : String, (∃ r ∈ ds, r.merchant_id = some m) →
      ((failure_rate ds).map FRRow.merchant_id).count m = 1) ∧
    (∀ row ∈ failure_rate ds,
      row.failed_txns ≤ row.total_txns ∧ 1 ≤ row.total_txns) ∧
    ((failure_rate ds).map FRRow.total_txns).sum =
      ds.countP fun r => r.merchant_id.isSome := by
  refine ⟨?_, ?_, sum_total_txns ds⟩
  · intro m hm
    rw [failure_rate_keys]
    exact List.count_eq_one_of_mem (List.nodup_dedup _)
      (by rw [List.mem_dedup, List.mem_filterMap]; exact hm)
  · intro row hrow
    obtain ⟨⟨r, hr, hrm⟩, ht, hf, _⟩ := mem_failure_rate.mp hrow
    have hpos : 0 < row.total_txns := by
      rw [ht, List.countP_pos_iff]
      exact ⟨r, hr, by simp [hrm]⟩
    refine ⟨?_, hpos⟩
    rw [ht, hf]
    refine List.countP_mono_left fun x hx h => ?_
    rw [decide_eq_true_eq] at h ⊢
    exact h.1

theorem failure_rate_invariants_witness :
    (∀ m : String, (∃ r ∈ scenarioInput, r.merchant_id = some m) →
      ((failure_rate scenarioInput).map FRRow.merchant_id).count m = 1) ∧
    (∀ row ∈ failure_rate scenarioInput,
      row.failed_txns ≤ row.total_txns ∧ 1 ≤ row.total_txns) ∧
    ((failure_rate scenarioInput).map FRRow.total_txns).sum =
      scenarioInput.countP fun r => r.merchant_id.isSome :=
  failure_rate_invariants scenarioInput
